import Mathlib

/-!
# Verification of the webform-wizard LWC components

Shallow embedding of the Lightning Web Components in
`src/force-app/main/default/lwc/` (betterWebform, webformRelaunch,
docusignWebformIframe, docusignApiDebug) and proofs about the status-guard
logic, event filtering, error handling and teardown behaviour.

JavaScript values that matter here are strings that may be `undefined`
(modelled as `Option String`), with JS truthiness (both `undefined` and `""`
are falsy).
-/

namespace WebformWizard

/-- JS truthiness of a possibly-undefined string: `undefined` and `""` are
falsy, every other string is truthy. -/
def jsTruthy : Option String → Bool
  | none => false
  | some s => !s.isEmpty

/-- JS `a || b` on possibly-undefined strings: yields `a` when `a` is truthy,
otherwise `b`. -/
def jsOr (a b : Option String) : Option String :=
  if jsTruthy a then a else b

/-- The `body` of a platform error object: `error.body`, which may itself
carry a `message` field. -/
structure JsErrorBody where
  message : Option String
  deriving Repr, DecidableEq

/-- A JS error object as the components consume it: optional structured
`body` (with optional `body.message`) and an optional plain `message`. -/
structure JsError where
  body : Option JsErrorBody
  message : Option String
  deriving Repr, DecidableEq

/-- The expression `error?.body?.message || error?.message || generic`: the
error-message selection used by the catch blocks of betterWebform and of
webformRelaunch. -/
def pickErrorMessage (e : JsError) (generic : String) : Option String :=
  jsOr (e.body.bind (·.message)) (jsOr e.message (some generic))

/-- The expression `error.body ? error.body.message : error.message`: the
error-message selection used by the catch block of docusignWebformIframe
(note there is no generic fallback). -/
def iframePickErrorMessage (e : JsError) : Option String :=
  match e.body with
  | some b => b.message
  | none => e.message

/-! ## Status-guard state machine (betterWebform.initializeWebform)

`initializeWebform` registers SDK event observers for
`ready`, `submitted` and `sessionEnd` and a `window` message handler.
Both paths call `this.updateStatus(...)` guarded by the one-time flags
`_didReady`, `_didSubmit`, `_didEnd`.  We model the guard flags and, for each
delivered event, the status string passed to `updateStatus` (if any); each
single event produces at most one `updateStatus` call. -/

/-- The one-time guard flags `_didEnd`, `_didSubmit`, `_didReady` of
`BetterWebform`. -/
structure Guards where
  didEnd : Bool
  didSubmit : Bool
  didReady : Bool
  deriving Repr, DecidableEq

/-- Guard flags as reset for a fresh session (`handleConditionClick` success
path and initial field values). -/
def Guards.fresh : Guards := ⟨false, false, false⟩

/-- The `data` field of a window message as consumed by the fallback
`messageHandler`: `data.sender`, `data.eventType`, `data.type`,
`data.content.sessionEndType` (each possibly absent). -/
structure MsgData where
  sender : Option String
  eventType : Option String
  type : Option String
  sessionEndType : Option String
  deriving Repr, DecidableEq

/-- The SDK event types `initializeWebform` subscribes to. -/
inductive SdkEventType
  | ready
  | submitted
  | sessionEnd
  deriving Repr, DecidableEq

/-- One delivered notification: either an SDK widget event (with the payload
subtype it may carry — the SDK handler ignores it) or a window message whose
`data` may be absent. -/
inductive WFEvent
  | sdk (t : SdkEventType) (payloadSubtype : Option String)
  | message (data : Option MsgData)
  deriving Repr, DecidableEq

/-- Closure `markInProgressOnce` from `initializeWebform`: reports
"In Progress" unless `_didEnd` or `_didSubmit` is already set. -/
def markInProgressOnce (g : Guards) : Guards × Option String :=
  if g.didEnd || g.didSubmit then (g, none)
  else ({ g with didEnd := true }, some "In Progress")

/-- The SDK event observer body of `initializeWebform` (the `switch` on
`eventType`); the payload is ignored. -/
def sdkStep (g : Guards) : SdkEventType → Guards × Option String
  | .ready =>
      if g.didReady then (g, none)
      else ({ g with didReady := true }, some "Ready")
  | .submitted =>
      if g.didSubmit then (g, none)
      else ({ g with didSubmit := true }, some "Submitted")
  | .sessionEnd => markInProgressOnce g

/-- The sender allow-list of the fallback `messageHandler`. -/
def allowedSenders : List String :=
  ["WebFormsPlayer", "@embedded/signing-ui", "@embedded-js/core"]

/-- The interesting-event set of the fallback `messageHandler`. -/
def interestingEvents : List String := ["ready", "submitted", "sessionEnd"]

/-- The fallback `messageHandler` of `initializeWebform`, applied to a
`data` field of a message (absent `data` is ignored). -/
def messageStep (g : Guards) : Option MsgData → Guards × Option String
  | none => (g, none)
  | some data =>
    if jsTruthy data.sender && !(allowedSenders.contains (data.sender.getD "")) then
      (g, none)
    else
      match jsOr data.eventType data.type with
      | none => (g, none)
      | some t =>
        if !(interestingEvents.contains t) then (g, none)
        else if t = "submitted" then
          if g.didSubmit then (g, none)
          else ({ g with didSubmit := true }, some "Submitted")
        else if t = "sessionEnd" then
          if data.sessionEndType = some "finishLater"
              || data.sessionEndType = some "finish_later" then
            markInProgressOnce g
          else if data.sessionEndType = some "completed" then
            (g, some "Submitted")
          else
            markInProgressOnce g
        else
          if g.didReady then (g, none)
          else ({ g with didReady := true }, some "Ready")

/-- One delivered notification processed by whichever path receives it. -/
def step (g : Guards) : WFEvent → Guards × Option String
  | .sdk t _ => sdkStep g t
  | .message d => messageStep g d

/-- Process a sequence of notifications, collecting every status string
passed to `updateStatus`, in order. -/
def processEvents (g : Guards) : List WFEvent → Guards × List String
  | [] => (g, [])
  | e :: rest =>
    let p := step g e
    let q := processEvents p.1 rest
    (q.1, p.2.toList ++ q.2)

/-- Recognizer for a notification that reaches the unguarded `completed`
branch of the fallback messageHandler: a window message that passes the
sender filter, resolves to event type `sessionEnd`, and carries
a `content.sessionEndType` equal to "completed". -/
def isCompletedFallback : WFEvent → Bool
  | .message (some d) =>
      (!(jsTruthy d.sender) || allowedSenders.contains (d.sender.getD "")) &&
      jsOr d.eventType d.type == some "sessionEnd" &&
      d.sessionEndType == some "completed"
  | _ => false

/-! ## Component states -/

/-- A constructed webforms widget instance, as this UI observes it: the
`url` and `options.instanceToken` it was created and mounted with.  Per the
SDK contract the instance carries `.on`, `.mount` and `.destroy`. -/
structure WidgetInstance where
  url : String
  instanceToken : String
  deriving Repr, DecidableEq

/-- The result object of `createWebformInstance` (Apex): expected shape
`{ instanceToken, instanceId, formUrl }`, each field possibly absent. -/
structure DsInstance where
  instanceToken : Option String
  instanceId : Option String
  formUrl : Option String
  deriving Repr, DecidableEq

/-- Component state of `BetterWebform` (betterWebform.js): the fields the
claims are about. -/
structure BWState where
  showSelector : Bool
  isLoading : Bool
  errorMessage : Option String
  docusignLoaded : Bool
  webformsInstance : Option WidgetInstance
  messageHandler : Bool
  instanceToken : Option String
  instanceId : Option String
  currentFormId : Option String
  webformInstanceRecordId : Option String
  pendingFormUrl : Option String
  pendingInstanceToken : Option String
  hasRendered : Bool
  didEnd : Bool
  didSubmit : Bool
  didReady : Bool
  deriving Repr, DecidableEq

/-- The handler `handleConditionClick` of betterWebform.js, with the two
awaited Apex calls supplied as results: `createInstanceResult` for
`createWebformInstance` and `createRecordResult` for
`createWebformInstanceRecord`.  Field assignments made before a failing
await persist into the catch branch, as in the source. -/
def bwHandleConditionClick (s : BWState) (formId dbqWebformId : Option String)
    (createInstanceResult : Except JsError DsInstance)
    (createRecordResult : Except JsError String) : BWState :=
  if !s.docusignLoaded then
    { s with
        errorMessage :=
          some "DocuSign library not loaded yet. Please try again in a moment." }
  else
    let s := { s with isLoading := true, errorMessage := none }
    if !(jsTruthy formId) || !(jsTruthy dbqWebformId) then
      { s with errorMessage := some "Missing form information", isLoading := false }
    else
      match createInstanceResult with
      | .error e =>
          { s with errorMessage := pickErrorMessage e "Unexpected error",
                   isLoading := false }
      | .ok ds =>
        let s := { s with instanceToken := ds.instanceToken,
                          instanceId := ds.instanceId,
                          currentFormId := formId }
        match createRecordResult with
        | .error e =>
            { s with errorMessage := pickErrorMessage e "Unexpected error",
                     isLoading := false }
        | .ok sfRecordId =>
            { s with webformInstanceRecordId := some sfRecordId,
                     pendingFormUrl := ds.formUrl,
                     pendingInstanceToken := ds.instanceToken,
                     showSelector := false,
                     isLoading := false,
                     didEnd := false, didSubmit := false, didReady := false }

/-- Observable teardown actions, in the order they are performed. -/
inductive TeardownOp
  | removeMessageListener
  | destroyWidget
  | resetState
  deriving Repr, DecidableEq

/-- The handler `handleBackToSelector` of betterWebform.js: removes the
message listener (when present), destroys the widget instance (when
present), then resets the component state.  Returns the new state and the
performed actions in order. -/
def bwHandleBackToSelector (s : BWState) : BWState × List TeardownOp :=
  let listenerOps := if s.messageHandler then [TeardownOp.removeMessageListener] else []
  let destroyOps := if s.webformsInstance.isSome then [TeardownOp.destroyWidget] else []
  ({ s with messageHandler := false,
            showSelector := true,
            instanceToken := none,
            instanceId := none,
            currentFormId := none,
            webformInstanceRecordId := none,
            webformsInstance := none,
            pendingFormUrl := none,
            pendingInstanceToken := none,
            hasRendered := false,
            didEnd := false, didSubmit := false, didReady := false },
   listenerOps ++ destroyOps ++ [TeardownOp.resetState])

/-- The `disconnectedCallback` of betterWebform.js: removes the message
listener (nulling the field) and destroys the widget instance if present;
the `webformsInstance` field itself is not cleared here. -/
def bwDisconnectedCallback (s : BWState) : BWState × List TeardownOp :=
  let listenerOps := if s.messageHandler then [TeardownOp.removeMessageListener] else []
  let destroyOps := if s.webformsInstance.isSome then [TeardownOp.destroyWidget] else []
  ({ s with messageHandler := false }, listenerOps ++ destroyOps)

/-- Outcome of an awaited Apex call that returns nothing of interest. -/
inductive ApexOutcome
  | ok
  | err (e : JsError)
  deriving Repr, DecidableEq

/-- The method `updateStatus` of betterWebform.js.  Returns the new state
and the status string actually sent to `updateWebformInstanceStatus`
(`none` when no backend call was made because no record id is held). -/
def bwUpdateStatus (s : BWState) (status : String) (outcome : ApexOutcome) :
    BWState × Option String :=
  if !(jsTruthy s.webformInstanceRecordId) then (s, none)
  else
    match outcome with
    | .ok => (s, some status)
    | .err e =>
        ({ s with errorMessage := pickErrorMessage e "Failed to update status" },
         some status)

/-- Component state of `docusignWebformIframe` (docusignWebformIframe.js). -/
structure IframeState where
  selectedUrl : Option String
  showSelector : Bool
  isLoading : Bool
  errorMessage : Option String
  instanceToken : Option String
  instanceId : Option String
  currentFormId : Option String
  webformInstanceRecordId : Option String
  deriving Repr, DecidableEq

/-- The handler `handleConditionClick` of docusignWebformIframe.js.  Its
catch branch uses `error.body ? error.body.message : error.message` and the
`finally` branch always stops the loading indicator. -/
def iframeHandleConditionClick (s : IframeState) (formId dbqWebformId : Option String)
    (createInstanceResult : Except JsError DsInstance)
    (createRecordResult : Except JsError String) : IframeState :=
  let s := { s with isLoading := true, errorMessage := none }
  if !(jsTruthy formId) then
    { s with errorMessage := some "Form ID not found for this condition",
             isLoading := false }
  else if !(jsTruthy dbqWebformId) then
    { s with errorMessage := some "DBQ Webform record ID not found",
             isLoading := false }
  else
    match createInstanceResult with
    | .error e =>
        { s with errorMessage := iframePickErrorMessage e, isLoading := false }
    | .ok r =>
      let s := { s with instanceToken := r.instanceToken,
                        instanceId := r.instanceId,
                        currentFormId := formId,
                        selectedUrl := r.formUrl }
      match createRecordResult with
      | .error e =>
          { s with errorMessage := iframePickErrorMessage e, isLoading := false }
      | .ok sfRecordId =>
          { s with webformInstanceRecordId := some sfRecordId,
                   showSelector := false, isLoading := false }

/-! ## Relaunch component (webformRelaunch.js) -/

/-- Component state of `WebformRelaunch` (webformRelaunch.js). -/
structure RLState where
  isLoading : Bool
  errorMessage : Option String
  status : Option String
  formUrl : Option String
  instanceId : Option String
  sdkLoaded : Bool
  webformsInstance : Option WidgetInstance
  instanceToken : Option String
  didEnd : Bool
  didSubmit : Bool
  pendingResume : Bool
  deriving Repr, DecidableEq

/-- The getter `canRender` of webformRelaunch.js:
falsy `errorMessage` and a status equal to "In Progress". -/
def canRender (s : RLState) : Bool :=
  !(jsTruthy s.errorMessage) && s.status == some "In Progress"

/-- The getter `showNotInProgress` of webformRelaunch.js. -/
def showNotInProgress (s : RLState) : Bool :=
  !s.isLoading && !(jsTruthy s.errorMessage) && !(s.status == some "In Progress")

/-- The result object of `refreshInstanceToken` (Apex): a new
`instanceToken`, possibly with updated `formUrl` and `instanceId`. -/
structure RefreshResult where
  instanceToken : Option String
  formUrl : Option String
  instanceId : Option String
  deriving Repr, DecidableEq

/-- Environment of a `resume` run: the outcome of the awaited
`refreshInstanceToken` call, and whether the container element is found in
the template. -/
structure ResumeEnv where
  refresh : Except JsError RefreshResult
  containerPresent : Bool
  deriving Repr

/-- The method `mount` of webformRelaunch.js: resets both guard flags and
constructs plus mounts a fresh widget instance with the given url and
token. -/
def rlMount (s : RLState) (formUrl instanceToken : String) : RLState :=
  { s with didEnd := false, didSubmit := false,
           webformsInstance := some ⟨formUrl, instanceToken⟩ }

/-- The method `resume` of webformRelaunch.js.  A thrown or rejected error
is caught and surfaced via `e?.body?.message || e?.message || generic`;
field assignments made before the failure persist. -/
def rlResume (s : RLState) (env : ResumeEnv) : RLState :=
  let s := { s with isLoading := true, errorMessage := none }
  if !s.sdkLoaded then
    { s with pendingResume := true }
  else if !(jsTruthy s.formUrl) || !(jsTruthy s.instanceId) then
    { s with errorMessage := some "Missing form URL or Instance ID on the record",
             isLoading := false }
  else
    match env.refresh with
    | .error e =>
        { s with errorMessage := pickErrorMessage e "Unexpected error resuming webform",
                 isLoading := false }
    | .ok refreshed =>
      let s := { s with instanceToken := refreshed.instanceToken,
                        formUrl := jsOr refreshed.formUrl s.formUrl,
                        instanceId := jsOr refreshed.instanceId s.instanceId }
      if !(jsTruthy s.instanceToken) then
        { s with errorMessage := some "Failed to obtain a fresh instance token",
                 isLoading := false }
      else if !env.containerPresent then
        { s with errorMessage := some "Container not found", isLoading := false }
      else
        let s := { s with webformsInstance := none }
        let s := rlMount s (s.formUrl.getD "") (s.instanceToken.getD "")
        { s with isLoading := false }

/-- The callback of the 15-second SDK-load safety timeout registered in
`connectedCallback` of webformRelaunch.js: it fires only when the SDK has
not finished loading, setting a timeout error and stopping the loading
indicator. -/
def rlSdkTimeoutFire (s : RLState) : RLState :=
  if !s.sdkLoaded then
    { s with errorMessage := some "DocuSign SDK took too long to load.",
             isLoading := false }
  else s

/-- Continuation of `connectedCallback` of webformRelaunch.js once
`loadScript` and `loadDocuSign` resolve (possibly after the safety timeout
already fired): sets `sdkLoaded` and, when a resume is pending, clears the
flag and runs `resume`. -/
def rlSdkLoadResolved (s : RLState) (env : ResumeEnv) : RLState :=
  let s := { s with sdkLoaded := true }
  if s.pendingResume then rlResume { s with pendingResume := false } env
  else s

/-- The method `updateStatus` of webformRelaunch.js: always attempts the
backend call; on failure the error is logged and surfaced in
`errorMessage`.  Returns the new state and the status string sent. -/
def rlUpdateStatus (s : RLState) (status : String) (outcome : ApexOutcome) :
    RLState × Option String :=
  match outcome with
  | .ok => (s, some status)
  | .err e =>
      ({ s with errorMessage := pickErrorMessage e "Failed to update status" },
       some status)

/-- The SDK event observers registered by `mount` of webformRelaunch.js:
`submitted` is guarded by `_didSubmit`, `sessionEnd` by
`_didEnd || _didSubmit`; `ready` produces no status update. -/
def rlEventStep (s : RLState) : SdkEventType → RLState × Option String
  | .submitted =>
      if s.didSubmit then (s, none)
      else ({ s with didSubmit := true }, some "Submitted")
  | .sessionEnd =>
      if s.didEnd || s.didSubmit then (s, none)
      else ({ s with didEnd := true }, some "In Progress")
  | .ready => (s, none)

/-! ## Helper lemmas about the status-guard machine -/

theorem step_didSubmit_mono (g : Guards) (e : WFEvent) (h : g.didSubmit = true) :
    (step g e).1.didSubmit = true := by
  cases e with
  | sdk t pt =>
    cases t <;> simp only [step, sdkStep, markInProgressOnce] <;>
      repeat' first | split | simp_all
  | message d =>
    cases d with
    | none => simpa [step, messageStep] using h
    | some data =>
      simp only [step, messageStep, markInProgressOnce]
      repeat' first | split | simp_all

theorem step_didReady_mono (g : Guards) (e : WFEvent) (h : g.didReady = true) :
    (step g e).1.didReady = true := by
  cases e with
  | sdk t pt =>
    cases t <;> simp only [step, sdkStep, markInProgressOnce] <;>
      repeat' first | split | simp_all
  | message d =>
    cases d with
    | none => simpa [step, messageStep] using h
    | some data =>
      simp only [step, messageStep, markInProgressOnce]
      repeat' first | split | simp_all

theorem step_didEnd_mono (g : Guards) (e : WFEvent) (h : g.didEnd = true) :
    (step g e).1.didEnd = true := by
  cases e with
  | sdk t pt =>
    cases t <;> simp only [step, sdkStep, markInProgressOnce] <;>
      repeat' first | split | simp_all
  | message d =>
    cases d with
    | none => simpa [step, messageStep] using h
    | some data =>
      simp only [step, messageStep, markInProgressOnce]
      repeat' first | split | simp_all

theorem step_emit_ready (g : Guards) (e : WFEvent)
    (h : (step g e).2 = some "Ready") :
    g.didReady = false ∧ (step g e).1.didReady = true := by
  cases e with
  | sdk t pt =>
    cases t <;> simp only [step, sdkStep, markInProgressOnce] at * <;>
      repeat' first | split at h | split | simp_all
  | message d =>
    cases d with
    | none => simp [step, messageStep] at h
    | some data =>
      simp only [step, messageStep, markInProgressOnce] at *
      repeat' first | split at h | split | simp_all

theorem step_emit_inprogress (g : Guards) (e : WFEvent)
    (h : (step g e).2 = some "In Progress") :
    (g.didEnd || g.didSubmit) = false ∧ (step g e).1.didEnd = true := by
  cases e with
  | sdk t pt =>
    cases t <;> simp only [step, sdkStep, markInProgressOnce] at * <;>
      repeat' first | split at h | split | simp_all
  | message d =>
    cases d with
    | none => simp [step, messageStep] at h
    | some data =>
      simp only [step, messageStep, markInProgressOnce] at *
      repeat' first | split at h | split | simp_all

theorem step_emit_submitted (g : Guards) (e : WFEvent)
    (h : (step g e).2 = some "Submitted") :
    (g.didSubmit = false ∧ (step g e).1.didSubmit = true) ∨ isCompletedFallback e = true := by
  cases e with
  | sdk t pt =>
    cases t <;> simp only [step, sdkStep, markInProgressOnce] at * <;>
      repeat' first | split at h | split | simp_all
  | message d =>
    cases d with
    | none => simp [step, messageStep] at h
    | some data =>
      simp only [step, messageStep, markInProgressOnce, isCompletedFallback] at *
      repeat' first | split at h | split | simp_all
      try (cases hj : jsTruthy data.sender <;> simp_all)

theorem step_endOrSubmit_mono (g : Guards) (e : WFEvent)
    (h : (g.didEnd || g.didSubmit) = true) :
    ((step g e).1.didEnd || (step g e).1.didSubmit) = true := by
  rcases (Bool.or_eq_true _ _).mp h with h1 | h2
  · simp [step_didEnd_mono g e h1]
  · simp [step_didSubmit_mono g e h2]

/-- Generic one-shot bound: when every emission of `status` requires a flag
to be clear and sets it, and the flag is monotone under `step`, a trace
emits `status` at most once (and never when the flag starts set). -/
theorem processEvents_count_flag (flag : Guards → Bool) (status : String)
    (hmono : ∀ g e, flag g = true → flag (step g e).1 = true)
    (hemit : ∀ g e, (step g e).2 = some status → flag g = false ∧ flag (step g e).1 = true)
    (g : Guards) (tr : List WFEvent) :
    ((processEvents g tr).2.count status) ≤ (if flag g then 0 else 1) := by
  induction tr generalizing g with
  | nil => simp [processEvents]
  | cons e tr ih =>
    have ih2 := ih (step g e).1
    have hmono2 := hmono g e
    have hemit2 := hemit g e
    simp only [processEvents, List.count_append]
    rcases hp : (step g e).2 with _ | s
    · simp only [Option.toList, List.count_nil]
      rcases hg : flag g <;> rcases hg2 : flag (step g e).1 <;> simp_all
    · rw [hp] at hemit2
      by_cases hs : s = status
      · subst hs
        rcases hemit2 rfl with ⟨hgf, hga⟩
        simp_all [Option.toList]
      · have : (Option.some s).toList.count status = 0 := by
          simp [Option.toList, List.count_singleton, hs]
        rw [this]
        rcases hg : flag g <;> rcases hg2 : flag (step g e).1 <;> simp_all

theorem processEvents_count_ready (g : Guards) (tr : List WFEvent) :
    ((processEvents g tr).2.count "Ready") ≤ (if g.didReady then 0 else 1) :=
  processEvents_count_flag (fun g => g.didReady) "Ready"
    step_didReady_mono step_emit_ready g tr

theorem processEvents_count_inprogress (g : Guards) (tr : List WFEvent) :
    ((processEvents g tr).2.count "In Progress") ≤
      (if g.didEnd || g.didSubmit then 0 else 1) :=
  processEvents_count_flag (fun g => g.didEnd || g.didSubmit) "In Progress"
    step_endOrSubmit_mono
    (fun g e h => by
      rcases step_emit_inprogress g e h with ⟨h1, h2⟩
      exact ⟨h1, by simp [h2]⟩)
    g tr

/-- Submitted is emitted at most once through the guarded paths, plus once
for every notification that reaches the unguarded completed branch of the
fallback messageHandler. -/
theorem processEvents_count_submitted (g : Guards) (tr : List WFEvent) :
    ((processEvents g tr).2.count "Submitted") ≤
      (if g.didSubmit then 0 else 1) + tr.countP (fun e => isCompletedFallback e) := by
  induction tr generalizing g with
  | nil => simp [processEvents]
  | cons e tr ih =>
    have ih2 := ih (step g e).1
    have hmono := step_didSubmit_mono g e
    have hemit := step_emit_submitted g e
    simp only [processEvents, List.count_append, List.countP_cons]
    rcases hp : (step g e).2 with _ | s
    · simp only [Option.toList, List.count_nil]
      rcases hg : g.didSubmit <;> rcases hg2 : (step g e).1.didSubmit <;>
        rcases hc : isCompletedFallback e <;> simp_all <;> omega
    · rw [hp] at hemit
      by_cases hs : s = "Submitted"
      · subst hs
        rcases hemit rfl with ⟨hgf, hga⟩ | hcf
        · rcases hc : isCompletedFallback e <;> simp_all [Option.toList] <;> omega
        · rcases hg : g.didSubmit <;> rcases hg2 : (step g e).1.didSubmit <;>
            simp_all [Option.toList] <;> omega
      · have hz : (Option.some s).toList.count "Submitted" = 0 := by
          simp [Option.toList, List.count_singleton, hs]
        rw [hz]
        rcases hg : g.didSubmit <;> rcases hg2 : (step g e).1.didSubmit <;>
          rcases hc : isCompletedFallback e <;> simp_all <;> omega

/-- An error message picked with a non-empty generic fallback is always
truthy. -/
theorem pickErrorMessage_truthy (e : JsError) (generic : String)
    (h : generic.isEmpty = false) : jsTruthy (pickErrorMessage e generic) = true := by
  unfold pickErrorMessage jsOr
  split
  · next hb => exact hb
  · split
    · next hm => exact hm
    · simp [jsTruthy, h]

/-! ## Claim theorems -/

/-- C1 (amended): over any sequence of SDK events and fallback window
messages in one session started from fresh guards, the status "Ready" is
reported at most once and "In Progress" at most once; "Submitted" is
reported at most once through the guarded submitted paths plus once per
fallback sessionEnd message with subtype "completed", because that branch
of the messageHandler is unguarded.  The guard flags are reset when a new
session is created (the success path of handleConditionClick). -/
theorem c1_status_guard_bounds (tr : List WFEvent)
    (s : BWState) (formId dbqWebformId : Option String) (ds : DsInstance) (recId : String)
    (hload : s.docusignLoaded = true)
    (hfid : jsTruthy formId = true) (hdbq : jsTruthy dbqWebformId = true) :
    ((processEvents Guards.fresh tr).2.count "Ready" ≤ 1 ∧
     (processEvents Guards.fresh tr).2.count "In Progress" ≤ 1 ∧
     (processEvents Guards.fresh tr).2.count "Submitted" ≤
       1 + tr.countP (fun e => isCompletedFallback e)) ∧
    ((bwHandleConditionClick s formId dbqWebformId (.ok ds) (.ok recId)).didEnd = false ∧
     (bwHandleConditionClick s formId dbqWebformId (.ok ds) (.ok recId)).didSubmit = false ∧
     (bwHandleConditionClick s formId dbqWebformId (.ok ds) (.ok recId)).didReady = false) := by
  refine ⟨⟨?_, ?_, ?_⟩, ?_⟩
  · simpa [Guards.fresh] using processEvents_count_ready Guards.fresh tr
  · simpa [Guards.fresh] using processEvents_count_inprogress Guards.fresh tr
  · simpa [Guards.fresh] using processEvents_count_submitted Guards.fresh tr
  · simp [bwHandleConditionClick, hload, hfid, hdbq]

/-- C1 counterexample: two fallback sessionEnd messages with subtype
"completed" in one fresh session each produce a "Submitted" report, so the
guarded status "Submitted" is reported twice; moreover returning to the
selector (which creates no session) also resets the guard flags, so the
flags are not reset exclusively at session creation. -/
theorem c1_counterexample :
    (processEvents Guards.fresh
      [WFEvent.message (some ⟨some "WebFormsPlayer", some "sessionEnd", none, some "completed"⟩),
       WFEvent.message (some ⟨some "WebFormsPlayer", some "sessionEnd", none, some "completed"⟩)]).2 =
      ["Submitted", "Submitted"] ∧
    ¬ ((processEvents Guards.fresh
      [WFEvent.message (some ⟨some "WebFormsPlayer", some "sessionEnd", none, some "completed"⟩),
       WFEvent.message (some ⟨some "WebFormsPlayer", some "sessionEnd", none, some "completed"⟩)]).2.count
        "Submitted" ≤ 1) ∧
    (bwHandleBackToSelector
      ⟨false, false, none, true, some ⟨"https://x/f1", "t1"⟩, true, some "t1", some "i1",
       some "f1", some "rec1", none, none, true, true, true, true⟩).1.didSubmit = false := by
  decide

/-- C1 witness: the amended bounds and the guard reset evaluated at a
concrete trace and a concrete successful launch. -/
theorem c1_witness :
    ((processEvents Guards.fresh
        [WFEvent.message (some ⟨some "WebFormsPlayer", some "sessionEnd", none, some "completed"⟩)]).2.count "Ready" ≤ 1 ∧
     (processEvents Guards.fresh
        [WFEvent.message (some ⟨some "WebFormsPlayer", some "sessionEnd", none, some "completed"⟩)]).2.count "In Progress" ≤ 1 ∧
     (processEvents Guards.fresh
        [WFEvent.message (some ⟨some "WebFormsPlayer", some "sessionEnd", none, some "completed"⟩)]).2.count "Submitted" ≤
       1 + [WFEvent.message (some ⟨some "WebFormsPlayer", some "sessionEnd", none, some "completed"⟩)].countP
             (fun e => isCompletedFallback e)) ∧
    ((bwHandleConditionClick
        ⟨true, false, none, true, none, false, none, none, none, none, none, none, false, false, false, false⟩
        (some "f1") (some "d1") (.ok ⟨some "t1", some "i1", some "https://x/f1"⟩) (.ok "rec1")).didEnd = false ∧
     (bwHandleConditionClick
        ⟨true, false, none, true, none, false, none, none, none, none, none, none, false, false, false, false⟩
        (some "f1") (some "d1") (.ok ⟨some "t1", some "i1", some "https://x/f1"⟩) (.ok "rec1")).didSubmit = false ∧
     (bwHandleConditionClick
        ⟨true, false, none, true, none, false, none, none, none, none, none, none, false, false, false, false⟩
        (some "f1") (some "d1") (.ok ⟨some "t1", some "i1", some "https://x/f1"⟩) (.ok "rec1")).didReady = false) :=
  c1_status_guard_bounds
    [WFEvent.message (some ⟨some "WebFormsPlayer", some "sessionEnd", none, some "completed"⟩)]
    ⟨true, false, none, true, none, false, none, none, none, none, none, none, false, false, false, false⟩
    (some "f1") (some "d1") ⟨some "t1", some "i1", some "https://x/f1"⟩ "rec1"
    rfl (by decide) (by decide)

/-- C2 (amended): once submitted has fired (the submit guard is set), an SDK
sessionEnd event produces no status update, a fallback sessionEnd message
with a subtype other than "completed" produces no status update, and in the
relaunch component a sessionEnd event produces no status update; however a
fallback sessionEnd message with subtype "completed" still produces a
"Submitted" update. -/
theorem c2_submitted_suppression (g : Guards) (rl : RLState)
    (hg : g.didSubmit = true) (hrl : rl.didSubmit = true) :
    (∀ pt, (step g (.sdk .sessionEnd pt)).2 = none) ∧
    (∀ d : MsgData, jsOr d.eventType d.type = some "sessionEnd" →
        ¬ d.sessionEndType = some "completed" →
        (step g (.message (some d))).2 = none) ∧
    (∀ d : MsgData,
        (!(jsTruthy d.sender) || allowedSenders.contains (d.sender.getD "")) = true →
        jsOr d.eventType d.type = some "sessionEnd" →
        d.sessionEndType = some "completed" →
        (step g (.message (some d))).2 = some "Submitted") ∧
    (rlEventStep rl .sessionEnd).2 = none := by
  refine ⟨?_, ?_, ?_, ?_⟩
  · intro pt
    simp [step, sdkStep, markInProgressOnce, hg]
  · intro d ht hnc
    simp only [step, messageStep, markInProgressOnce, ht]
    repeat' first | split | simp_all
  · intro d hs ht hc
    simp only [step, messageStep, markInProgressOnce, ht]
    cases hj : jsTruthy d.sender <;>
      repeat' first | split | simp_all [interestingEvents, List.elem_iff]
  · simp [rlEventStep, hrl]

/-- C2 counterexample: after a submitted SDK event, a fallback sessionEnd
message with subtype "completed" still produces a further "Submitted"
status update. -/
theorem c2_counterexample :
    (processEvents Guards.fresh
      [WFEvent.sdk .submitted none,
       WFEvent.message (some ⟨some "WebFormsPlayer", some "sessionEnd", none, some "completed"⟩)]).2 =
      ["Submitted", "Submitted"] ∧
    (step Guards.fresh (.sdk .submitted none)).1.didSubmit = true ∧
    (step (step Guards.fresh (.sdk .submitted none)).1
      (.message (some ⟨some "WebFormsPlayer", some "sessionEnd", none, some "completed"⟩))).2 =
      some "Submitted" := by
  decide

/-- C2 witness: the suppression statements evaluated at concrete states
with the submit guard set. -/
theorem c2_witness :
    (∀ pt, (step ⟨false, true, false⟩ (.sdk .sessionEnd pt)).2 = none) ∧
    (∀ d : MsgData, jsOr d.eventType d.type = some "sessionEnd" →
        ¬ d.sessionEndType = some "completed" →
        (step ⟨false, true, false⟩ (.message (some d))).2 = none) ∧
    (∀ d : MsgData,
        (!(jsTruthy d.sender) || allowedSenders.contains (d.sender.getD "")) = true →
        jsOr d.eventType d.type = some "sessionEnd" →
        d.sessionEndType = some "completed" →
        (step ⟨false, true, false⟩ (.message (some d))).2 = some "Submitted") ∧
    (rlEventStep ⟨false, none, some "In Progress", some "https://x/f1", some "i1", true, none, some "t2", false, true, false⟩ .sessionEnd).2 = none :=
  c2_submitted_suppression ⟨false, true, false⟩
    ⟨false, none, some "In Progress", some "https://x/f1", some "i1", true, none, some "t2", false, true, false⟩
    rfl rfl

/-- C3 (amended): a sessionEnd notification with subtype "completed" that is
processed by the message-fallback path yields a "Submitted" update; the SDK
event path ignores the payload subtype entirely, so an SDK sessionEnd event
(whatever subtype its payload carries, including "completed") yields
"In Progress" when the In-Progress guard is clear and nothing otherwise. -/
theorem c3_completed_mapping (g : Guards) (d : MsgData) (pt : Option String)
    (hsender : (!(jsTruthy d.sender) || allowedSenders.contains (d.sender.getD "")) = true)
    (htype : jsOr d.eventType d.type = some "sessionEnd")
    (hsub : d.sessionEndType = some "completed") :
    (step g (.message (some d))).2 = some "Submitted" ∧
    (step g (.sdk .sessionEnd pt)).2 =
      (if g.didEnd || g.didSubmit then none else some "In Progress") := by
  constructor
  · simp only [step, messageStep, markInProgressOnce, htype]
    cases hj : jsTruthy d.sender <;>
      repeat' first | split | simp_all [interestingEvents, List.elem_iff]
  · simp only [step, sdkStep, markInProgressOnce]
    split <;> rfl

/-- C3 counterexample: an SDK sessionEnd event carrying payload subtype
"completed", in a fresh session, produces the status update "In Progress",
not "Submitted". -/
theorem c3_counterexample :
    (step Guards.fresh (.sdk .sessionEnd (some "completed"))).2 = some "In Progress" ∧
    ¬ (step Guards.fresh (.sdk .sessionEnd (some "completed"))).2 = some "Submitted" := by
  decide

/-- C3 witness: the completed mapping evaluated at a concrete message and a
concrete SDK event. -/
theorem c3_witness :
    (step Guards.fresh (.message (some ⟨some "WebFormsPlayer", some "sessionEnd", none, some "completed"⟩))).2 = some "Submitted" ∧
    (step Guards.fresh (.sdk .sessionEnd (some "completed"))).2 =
      (if Guards.fresh.didEnd || Guards.fresh.didSubmit then none else some "In Progress") :=
  c3_completed_mapping Guards.fresh
    ⟨some "WebFormsPlayer", some "sessionEnd", none, some "completed"⟩
    (some "completed") (by decide) (by decide) (by decide)

/-- C4 (amended): if the SDK has not loaded when the 15-second safety
timeout fires, the relaunch UI enters the timeout-error state with the
loading indicator stopped.  A load resolving after the timeout leaves that
state untouched when no resume is pending; but when a resume is pending
(the usual case for an In-Progress record), the late load triggers resume,
which clears the error, restarts the flow and mounts the widget. -/
theorem c4_sdk_timeout (s : RLState) (env : ResumeEnv)
    (h : s.sdkLoaded = false) :
    ((rlSdkTimeoutFire s).errorMessage = some "DocuSign SDK took too long to load." ∧
     (rlSdkTimeoutFire s).isLoading = false) ∧
    (s.pendingResume = false → rlSdkLoadResolved s env = { s with sdkLoaded := true }) ∧
    (s.pendingResume = true → jsTruthy s.formUrl = true → jsTruthy s.instanceId = true →
      ∀ r, env.refresh = .ok r → jsTruthy r.instanceToken = true → env.containerPresent = true →
        (rlSdkLoadResolved s env).errorMessage = none ∧
        (rlSdkLoadResolved s env).isLoading = false ∧
        (rlSdkLoadResolved s env).webformsInstance =
          some ⟨(jsOr r.formUrl s.formUrl).getD "", r.instanceToken.getD ""⟩) := by
  refine ⟨?_, ?_, ?_⟩
  · simp [rlSdkTimeoutFire, h]
  · intro hpr
    simp [rlSdkLoadResolved, hpr]
  · intro hpr hfu hii r hr htok hcp
    simp [rlSdkLoadResolved, rlResume, rlMount, hpr, hfu, hii, hr, htok, hcp]

/-- C4 counterexample: with a pending resume, the timeout fires and sets the
error state, yet the late-resolving load clears the error and mounts the
widget — the timeout-error state is not terminal. -/
theorem c4_counterexample :
    (rlSdkTimeoutFire
      ⟨true, none, some "In Progress", some "https://x/f1", some "i1", false, none, none, false, false, true⟩).errorMessage =
        some "DocuSign SDK took too long to load." ∧
    (rlSdkTimeoutFire
      ⟨true, none, some "In Progress", some "https://x/f1", some "i1", false, none, none, false, false, true⟩).isLoading = false ∧
    (rlSdkLoadResolved
      (rlSdkTimeoutFire
        ⟨true, none, some "In Progress", some "https://x/f1", some "i1", false, none, none, false, false, true⟩)
      ⟨.ok ⟨some "t2", none, none⟩, true⟩).errorMessage = none ∧
    (rlSdkLoadResolved
      (rlSdkTimeoutFire
        ⟨true, none, some "In Progress", some "https://x/f1", some "i1", false, none, none, false, false, true⟩)
      ⟨.ok ⟨some "t2", none, none⟩, true⟩).webformsInstance = some ⟨"https://x/f1", "t2"⟩ := by
  decide

/-- C4 witness: the timeout branch and the no-pending-resume branch
evaluated at a concrete state. -/
theorem c4_witness :
    ((rlSdkTimeoutFire
        ⟨true, none, some "In Progress", some "https://x/f1", some "i1", false, none, none, false, false, false⟩).errorMessage =
          some "DocuSign SDK took too long to load." ∧
     (rlSdkTimeoutFire
        ⟨true, none, some "In Progress", some "https://x/f1", some "i1", false, none, none, false, false, false⟩).isLoading = false) ∧
    rlSdkLoadResolved
        ⟨true, none, some "In Progress", some "https://x/f1", some "i1", false, none, none, false, false, false⟩
        ⟨.ok ⟨some "t2", none, none⟩, true⟩ =
      { (⟨true, none, some "In Progress", some "https://x/f1", some "i1", false, none, none, false, false, false⟩ : RLState) with
          sdkLoaded := true } :=
  ⟨(c4_sdk_timeout
      ⟨true, none, some "In Progress", some "https://x/f1", some "i1", false, none, none, false, false, false⟩
      ⟨.ok ⟨some "t2", none, none⟩, true⟩ rfl).1,
   (c4_sdk_timeout
      ⟨true, none, some "In Progress", some "https://x/f1", some "i1", false, none, none, false, false, false⟩
      ⟨.ok ⟨some "t2", none, none⟩, true⟩ rfl).2.1 rfl⟩

/-- C5 (amended): a failed status-update call sets only the error banner.
In betterWebform the session view is untouched: showSelector, the widget
instance and the message listener are unchanged.  In webformRelaunch the
widget instance is likewise not destroyed, but the new error message makes
canRender false, so the embedded container is no longer rendered — the
session view does not remain visible in that variant. -/
theorem c5_update_status_failure (sb : BWState) (sr : RLState) (e : JsError) (st : String)
    (hrec : jsTruthy sb.webformInstanceRecordId = true)
    (hst : sr.status = some "In Progress") :
    ((bwUpdateStatus sb st (.err e)).1.showSelector = sb.showSelector ∧
     (bwUpdateStatus sb st (.err e)).1.webformsInstance = sb.webformsInstance ∧
     (bwUpdateStatus sb st (.err e)).1.messageHandler = sb.messageHandler ∧
     (bwUpdateStatus sb st (.err e)).1.errorMessage = pickErrorMessage e "Failed to update status") ∧
    ((rlUpdateStatus sr st (.err e)).1.webformsInstance = sr.webformsInstance ∧
     canRender (rlUpdateStatus sr st (.err e)).1 = false) := by
  constructor
  · simp [bwUpdateStatus, hrec]
  · constructor
    · simp [rlUpdateStatus]
    · simp [rlUpdateStatus, canRender, pickErrorMessage_truthy e "Failed to update status" rfl]

/-- C5 counterexample: in the relaunch variant a mounted In-Progress session
renders before a status-update failure and no longer renders afterwards, so
the embedded session view does not stay visible in every variant. -/
theorem c5_counterexample :
    canRender
      ⟨false, none, some "In Progress", some "https://x/f1", some "i1", true,
       some ⟨"https://x/f1", "t2"⟩, some "t2", false, false, false⟩ = true ∧
    canRender
      (rlUpdateStatus
        ⟨false, none, some "In Progress", some "https://x/f1", some "i1", true,
         some ⟨"https://x/f1", "t2"⟩, some "t2", false, false, false⟩
        "In Progress" (.err ⟨none, some "boom"⟩)).1 = false := by
  decide

/-- C5 witness: the failure behaviour evaluated at concrete states of both
variants. -/
theorem c5_witness :
    ((bwUpdateStatus
        ⟨false, false, none, true, some ⟨"https://x/f1", "t1"⟩, true, some "t1", some "i1",
         some "f1", some "rec1", none, none, true, false, false, true⟩
        "Submitted" (.err ⟨none, some "boom"⟩)).1.showSelector = false ∧
     (bwUpdateStatus
        ⟨false, false, none, true, some ⟨"https://x/f1", "t1"⟩, true, some "t1", some "i1",
         some "f1", some "rec1", none, none, true, false, false, true⟩
        "Submitted" (.err ⟨none, some "boom"⟩)).1.webformsInstance = some ⟨"https://x/f1", "t1"⟩ ∧
     (bwUpdateStatus
        ⟨false, false, none, true, some ⟨"https://x/f1", "t1"⟩, true, some "t1", some "i1",
         some "f1", some "rec1", none, none, true, false, false, true⟩
        "Submitted" (.err ⟨none, some "boom"⟩)).1.messageHandler = true ∧
     (bwUpdateStatus
        ⟨false, false, none, true, some ⟨"https://x/f1", "t1"⟩, true, some "t1", some "i1",
         some "f1", some "rec1", none, none, true, false, false, true⟩
        "Submitted" (.err ⟨none, some "boom"⟩)).1.errorMessage =
       pickErrorMessage ⟨none, some "boom"⟩ "Failed to update status") ∧
    ((rlUpdateStatus
        ⟨false, none, some "In Progress", some "https://x/f1", some "i1", true,
         some ⟨"https://x/f1", "t2"⟩, some "t2", false, false, false⟩
        "Submitted" (.err ⟨none, some "boom"⟩)).1.webformsInstance = some ⟨"https://x/f1", "t2"⟩ ∧
     canRender
      (rlUpdateStatus
        ⟨false, none, some "In Progress", some "https://x/f1", some "i1", true,
         some ⟨"https://x/f1", "t2"⟩, some "t2", false, false, false⟩
        "Submitted" (.err ⟨none, some "boom"⟩)).1 = false) :=
  c5_update_status_failure
    ⟨false, false, none, true, some ⟨"https://x/f1", "t1"⟩, true, some "t1", some "i1",
     some "f1", some "rec1", none, none, true, false, false, true⟩
    ⟨false, none, some "In Progress", some "https://x/f1", some "i1", true,
     some ⟨"https://x/f1", "t2"⟩, some "t2", false, false, false⟩
    ⟨none, some "boom"⟩ "Submitted" (by decide) rfl

/-- C6 (amended): when either remote creation call fails during a launch
attempt, betterWebform surfaces the structured body message, else the plain
error message, else the generic "Unexpected error", and leaves showSelector
unchanged (hence still in selector state) with the loading indicator
stopped.  docusignWebformIframe instead surfaces the body message whenever
a body object is present — even when that message field is absent, in which
case no message at all is surfaced — and the plain error message otherwise,
with no generic fallback; it likewise stays in selector state with loading
stopped. -/
theorem c6_launch_failure (sb : BWState) (si : IframeState) (fid dq : Option String)
    (e : JsError) (ds : DsInstance) (rec : String)
    (hload : sb.docusignLoaded = true) (hfid : jsTruthy fid = true) (hdq : jsTruthy dq = true) :
    ((bwHandleConditionClick sb fid dq (.error e) (.ok rec)).errorMessage =
        pickErrorMessage e "Unexpected error" ∧
     (bwHandleConditionClick sb fid dq (.error e) (.ok rec)).showSelector = sb.showSelector ∧
     (bwHandleConditionClick sb fid dq (.error e) (.ok rec)).isLoading = false) ∧
    ((bwHandleConditionClick sb fid dq (.ok ds) (.error e)).errorMessage =
        pickErrorMessage e "Unexpected error" ∧
     (bwHandleConditionClick sb fid dq (.ok ds) (.error e)).showSelector = sb.showSelector ∧
     (bwHandleConditionClick sb fid dq (.ok ds) (.error e)).isLoading = false) ∧
    ((iframeHandleConditionClick si fid dq (.error e) (.ok rec)).errorMessage =
        iframePickErrorMessage e ∧
     (iframeHandleConditionClick si fid dq (.error e) (.ok rec)).showSelector = si.showSelector ∧
     (iframeHandleConditionClick si fid dq (.error e) (.ok rec)).isLoading = false) ∧
    ((iframeHandleConditionClick si fid dq (.ok ds) (.error e)).errorMessage =
        iframePickErrorMessage e ∧
     (iframeHandleConditionClick si fid dq (.ok ds) (.error e)).showSelector = si.showSelector ∧
     (iframeHandleConditionClick si fid dq (.ok ds) (.error e)).isLoading = false) := by
  refine ⟨?_, ?_, ?_, ?_⟩ <;>
    simp [bwHandleConditionClick, iframeHandleConditionClick, hload, hfid, hdq]

/-- C6 counterexample: a remote error whose body lacks a message while a
plain message "boom" is present — docusignWebformIframe surfaces no message
at all (neither the structured field, which is absent, nor any generic
message), while betterWebform surfaces "boom" for the same error. -/
theorem c6_counterexample :
    (iframeHandleConditionClick
      ⟨none, true, false, none, none, none, none, none⟩
      (some "f1") (some "d1")
      (.error ⟨some ⟨none⟩, some "boom"⟩) (.ok "rec1")).errorMessage = none ∧
    (⟨some ⟨none⟩, some "boom"⟩ : JsError).message = some "boom" ∧
    (bwHandleConditionClick
      ⟨true, false, none, true, none, false, none, none, none, none, none, none, false, false, false, false⟩
      (some "f1") (some "d1")
      (.error ⟨some ⟨none⟩, some "boom"⟩) (.ok "rec1")).errorMessage = some "boom" := by
  decide

/-- C6 witness: the failure surface evaluated at a concrete error carrying
a structured body message. -/
theorem c6_witness :
    ((bwHandleConditionClick
        ⟨true, false, none, true, none, false, none, none, none, none, none, none, false, false, false, false⟩
        (some "f1") (some "d1") (.error ⟨some ⟨some "remote failure"⟩, some "boom"⟩) (.ok "rec1")).errorMessage =
          pickErrorMessage ⟨some ⟨some "remote failure"⟩, some "boom"⟩ "Unexpected error" ∧
     (bwHandleConditionClick
        ⟨true, false, none, true, none, false, none, none, none, none, none, none, false, false, false, false⟩
        (some "f1") (some "d1") (.error ⟨some ⟨some "remote failure"⟩, some "boom"⟩) (.ok "rec1")).showSelector = true ∧
     (bwHandleConditionClick
        ⟨true, false, none, true, none, false, none, none, none, none, none, none, false, false, false, false⟩
        (some "f1") (some "d1") (.error ⟨some ⟨some "remote failure"⟩, some "boom"⟩) (.ok "rec1")).isLoading = false) ∧
    (iframeHandleConditionClick
        ⟨none, true, false, none, none, none, none, none⟩
        (some "f1") (some "d1") (.error ⟨some ⟨some "remote failure"⟩, some "boom"⟩) (.ok "rec1")).errorMessage =
      iframePickErrorMessage ⟨some ⟨some "remote failure"⟩, some "boom"⟩ :=
  ⟨(c6_launch_failure
      ⟨true, false, none, true, none, false, none, none, none, none, none, none, false, false, false, false⟩
      ⟨none, true, false, none, none, none, none, none⟩
      (some "f1") (some "d1") ⟨some ⟨some "remote failure"⟩, some "boom"⟩
      ⟨some "t1", some "i1", some "https://x/f1"⟩ "rec1" rfl (by decide) (by decide)).1,
   (c6_launch_failure
      ⟨true, false, none, true, none, false, none, none, none, none, none, none, false, false, false, false⟩
      ⟨none, true, false, none, none, none, none, none⟩
      (some "f1") (some "d1") ⟨some ⟨some "remote failure"⟩, some "boom"⟩
      ⟨some "t1", some "i1", some "https://x/f1"⟩ "rec1" rfl (by decide) (by decide)).2.2.1.1⟩

/-- C7: returning to the selector leaves no widget instance and no message
listener: the widget is destroyed when one was mounted, the listener is
removed when one was attached, and the state reset is the last action, so
every teardown call happens before it.  Component disposal likewise removes
the listener and destroys the widget. -/
theorem c7_teardown (s : BWState) :
    ((bwHandleBackToSelector s).1.webformsInstance = none ∧
     (bwHandleBackToSelector s).1.messageHandler = false ∧
     (s.webformsInstance.isSome = true → TeardownOp.destroyWidget ∈ (bwHandleBackToSelector s).2) ∧
     (s.messageHandler = true → TeardownOp.removeMessageListener ∈ (bwHandleBackToSelector s).2) ∧
     (bwHandleBackToSelector s).2.getLast? = some TeardownOp.resetState ∧
     (bwHandleBackToSelector s).2.count TeardownOp.resetState = 1) ∧
    ((bwDisconnectedCallback s).1.messageHandler = false ∧
     (s.webformsInstance.isSome = true → TeardownOp.destroyWidget ∈ (bwDisconnectedCallback s).2) ∧
     (s.messageHandler = true → TeardownOp.removeMessageListener ∈ (bwDisconnectedCallback s).2)) := by
  rcases hm : s.messageHandler <;> rcases hw : s.webformsInstance <;>
    simp [bwHandleBackToSelector, bwDisconnectedCallback, hm, hw, List.count_cons, List.getLast?]

/-- C7 witness: the teardown guarantees evaluated at a concrete state with a
mounted widget and an attached listener. -/
theorem c7_witness :
    (bwHandleBackToSelector
      ⟨false, false, none, true, some ⟨"https://x/f1", "t1"⟩, true, some "t1", some "i1",
       some "f1", some "rec1", none, none, true, true, false, true⟩).1.webformsInstance = none ∧
    (bwHandleBackToSelector
      ⟨false, false, none, true, some ⟨"https://x/f1", "t1"⟩, true, some "t1", some "i1",
       some "f1", some "rec1", none, none, true, true, false, true⟩).1.messageHandler = false ∧
    TeardownOp.destroyWidget ∈
      (bwHandleBackToSelector
        ⟨false, false, none, true, some ⟨"https://x/f1", "t1"⟩, true, some "t1", some "i1",
         some "f1", some "rec1", none, none, true, true, false, true⟩).2 ∧
    TeardownOp.removeMessageListener ∈
      (bwHandleBackToSelector
        ⟨false, false, none, true, some ⟨"https://x/f1", "t1"⟩, true, some "t1", some "i1",
         some "f1", some "rec1", none, none, true, true, false, true⟩).2 ∧
    (bwHandleBackToSelector
      ⟨false, false, none, true, some ⟨"https://x/f1", "t1"⟩, true, some "t1", some "i1",
       some "f1", some "rec1", none, none, true, true, false, true⟩).2.getLast? =
      some TeardownOp.resetState :=
  ⟨(c7_teardown
      ⟨false, false, none, true, some ⟨"https://x/f1", "t1"⟩, true, some "t1", some "i1",
       some "f1", some "rec1", none, none, true, true, false, true⟩).1.1,
   (c7_teardown
      ⟨false, false, none, true, some ⟨"https://x/f1", "t1"⟩, true, some "t1", some "i1",
       some "f1", some "rec1", none, none, true, true, false, true⟩).1.2.1,
   (c7_teardown
      ⟨false, false, none, true, some ⟨"https://x/f1", "t1"⟩, true, some "t1", some "i1",
       some "f1", some "rec1", none, none, true, true, false, true⟩).1.2.2.1 rfl,
   (c7_teardown
      ⟨false, false, none, true, some ⟨"https://x/f1", "t1"⟩, true, some "t1", some "i1",
       some "f1", some "rec1", none, none, true, true, false, true⟩).1.2.2.2.1 rfl,
   (c7_teardown
      ⟨false, false, none, true, some ⟨"https://x/f1", "t1"⟩, true, some "t1", some "i1",
       some "f1", some "rec1", none, none, true, true, false, true⟩).1.2.2.2.2.1⟩

/-- C8: resuming an In-Progress record with a token refresh that returns
only a fresh truthy instanceToken mounts the widget with the refreshed
token while the stored form URL and instance id are retained; when the
refresh does include a truthy formUrl or instanceId those replace the
stored values; and the mount resets both status guards. -/
theorem c8_relaunch_refresh (s : RLState) (r : RefreshResult) (cp : Bool)
    (hsdk : s.sdkLoaded = true) (hst : s.status = some "In Progress")
    (hurl : jsTruthy s.formUrl = true) (hid : jsTruthy s.instanceId = true)
    (htok : jsTruthy r.instanceToken = true) (hcp : cp = true) :
    (r.formUrl = none → r.instanceId = none →
      (rlResume s ⟨.ok r, cp⟩).webformsInstance =
        some ⟨s.formUrl.getD "", r.instanceToken.getD ""⟩ ∧
      (rlResume s ⟨.ok r, cp⟩).formUrl = s.formUrl ∧
      (rlResume s ⟨.ok r, cp⟩).instanceId = s.instanceId ∧
      (rlResume s ⟨.ok r, cp⟩).instanceToken = r.instanceToken) ∧
    (jsTruthy r.formUrl = true → (rlResume s ⟨.ok r, cp⟩).formUrl = r.formUrl) ∧
    (jsTruthy r.instanceId = true → (rlResume s ⟨.ok r, cp⟩).instanceId = r.instanceId) ∧
    (rlResume s ⟨.ok r, cp⟩).didEnd = false ∧
    (rlResume s ⟨.ok r, cp⟩).didSubmit = false ∧
    (rlResume s ⟨.ok r, cp⟩).errorMessage = none ∧
    (rlResume s ⟨.ok r, cp⟩).isLoading = false := by
  subst hcp
  refine ⟨?_, ?_, ?_, ?_⟩
  · intro hfu hii
    simp [rlResume, rlMount, hsdk, hurl, hid, htok, hfu, hii, jsOr]
    simp [jsTruthy]
  · intro hfu
    simp [rlResume, rlMount, hsdk, hurl, hid, htok, hfu, jsOr]
  · intro hii
    simp [rlResume, rlMount, hsdk, hurl, hid, htok, hii, jsOr]
  · simp [rlResume, rlMount, hsdk, hurl, hid, htok, jsOr]

/-- C8 witness: the spec scenario — record with form URL https://x/f1 and
instance id i1, refresh returning only token t2 — mounts with t2 and keeps
the stored URL and id, resetting both guards. -/
theorem c8_witness :
    (rlResume
      ⟨false, none, some "In Progress", some "https://x/f1", some "i1", true, none, none, true, true, false⟩
      ⟨.ok ⟨some "t2", none, none⟩, true⟩).webformsInstance = some ⟨"https://x/f1", "t2"⟩ ∧
    (rlResume
      ⟨false, none, some "In Progress", some "https://x/f1", some "i1", true, none, none, true, true, false⟩
      ⟨.ok ⟨some "t2", none, none⟩, true⟩).formUrl = some "https://x/f1" ∧
    (rlResume
      ⟨false, none, some "In Progress", some "https://x/f1", some "i1", true, none, none, true, true, false⟩
      ⟨.ok ⟨some "t2", none, none⟩, true⟩).instanceId = some "i1" ∧
    (rlResume
      ⟨false, none, some "In Progress", some "https://x/f1", some "i1", true, none, none, true, true, false⟩
      ⟨.ok ⟨some "t2", none, none⟩, true⟩).instanceToken = some "t2" ∧
    (rlResume
      ⟨false, none, some "In Progress", some "https://x/f1", some "i1", true, none, none, true, true, false⟩
      ⟨.ok ⟨some "t2", none, none⟩, true⟩).didEnd = false ∧
    (rlResume
      ⟨false, none, some "In Progress", some "https://x/f1", some "i1", true, none, none, true, true, false⟩
      ⟨.ok ⟨some "t2", none, none⟩, true⟩).didSubmit = false := by
  have h := c8_relaunch_refresh
    ⟨false, none, some "In Progress", some "https://x/f1", some "i1", true, none, none, true, true, false⟩
    ⟨some "t2", none, none⟩ true rfl rfl (by decide) (by decide) (by decide) rfl
  obtain ⟨h1, _, _, h4, h5, _, _⟩ := h
  obtain ⟨w, f, i, t⟩ := h1 rfl rfl
  exact ⟨w, f, i, t, h4, h5⟩

/-- C10: calling updateStatus in betterWebform while no tracking-record id
is held performs no backend call and leaves the state unchanged — a silent
no-op apart from the console log; and returning to the selector is one way
the record id becomes null. -/
theorem c10_update_status_no_record (s : BWState) (st : String) (o : ApexOutcome)
    (h : jsTruthy s.webformInstanceRecordId = false) :
    bwUpdateStatus s st o = (s, none) ∧
    (bwHandleBackToSelector s).1.webformInstanceRecordId = none := by
  constructor
  · simp [bwUpdateStatus, h]
  · simp [bwHandleBackToSelector]

/-- C10 witness: the no-op evaluated at a concrete state holding no record
id. -/
theorem c10_witness :
    bwUpdateStatus
      ⟨true, false, none, true, none, false, none, none, none, none, none, none, false, false, false, false⟩
      "Ready" .ok =
      (⟨true, false, none, true, none, false, none, none, none, none, none, none, false, false, false, false⟩, none) :=
  (c10_update_status_no_record
    ⟨true, false, none, true, none, false, none, none, none, none, none, none, false, false, false, false⟩
    "Ready" .ok (by decide)).1

/-- C9 (amended): a window message that produces any status update through
the fallback path has either a falsy (absent or empty, hence unchecked)
sender or a sender in the allow-list, and resolves to an event type in the
interesting set; a message with a truthy sender outside the allow-list, or
with a type outside the interesting set, or with no resolvable type, is
ignored with the guards unchanged. -/
theorem c9_message_filter (g : Guards) (d : MsgData) :
    ((messageStep g (some d)).2.isSome = true →
       (jsTruthy d.sender = false ∨ allowedSenders.contains (d.sender.getD "") = true) ∧
       ∃ t, jsOr d.eventType d.type = some t ∧ interestingEvents.contains t = true) ∧
    (jsTruthy d.sender = true → allowedSenders.contains (d.sender.getD "") = false →
       messageStep g (some d) = (g, none)) ∧
    (∀ t, jsOr d.eventType d.type = some t → interestingEvents.contains t = false →
       messageStep g (some d) = (g, none)) ∧
    (jsOr d.eventType d.type = none → messageStep g (some d) = (g, none)) := by
  refine ⟨?_, ?_, ?_, ?_⟩
  · intro hemit
    simp only [messageStep, markInProgressOnce] at hemit
    constructor
    · cases hj : jsTruthy d.sender <;> simp_all
      repeat' first | split at hemit | simp_all
    · repeat' first | split at hemit | simp_all
  · intro h1 h2
    simp only [messageStep]
    simp_all [List.elem_iff]
  · intro t ht hnt
    simp only [messageStep, ht]
    repeat' first | split | simp_all
  · intro ht
    simp [messageStep, ht]

/-- C9 counterexample: a message carrying no sender field at all passes the
filter and produces a "Submitted" status update, although it has no source
identifier belonging to the allow-list. -/
theorem c9_counterexample :
    (messageStep Guards.fresh (some ⟨none, some "submitted", none, none⟩)).2 = some "Submitted" ∧
    (⟨none, some "submitted", none, none⟩ : MsgData).sender = none ∧
    allowedSenders.contains ((⟨none, some "submitted", none, none⟩ : MsgData).sender.getD "") = false := by
  decide

/-- C9 witness: the filter characterization evaluated at a concrete message
with a disallowed sender. -/
theorem c9_witness :
    messageStep Guards.fresh (some ⟨some "evil", some "submitted", none, none⟩) =
      (Guards.fresh, none) :=
  (c9_message_filter Guards.fresh ⟨some "evil", some "submitted", none, none⟩).2.1
    (by decide) (by decide)

end WebformWizard
